import Mathlib

/-!
Verification of the `tiptoe` intrusive reference-counting library.

The embedding models the counter protocol of `src/lib.rs`
(`ref_counter_api`) and the `Arc` operations of `src/sync.rs` at the
level of the embedded `usize` reference count.  A 64-bit platform is
assumed (`usize` = `u64`), matching the constants `usize::MAX` and
`isize::MAX` used by the source.  Atomic read-modify-write operations
become explicit state passing on a `Nat` counter value, with wraparound
taken modulo `2 ^ 64` exactly where the source's `fetch_add`/`fetch_sub`
wrap.  `abort()` and `panic!` are modelled as outcome constructors, and
the counter value recorded alongside them is the value the cell holds at
the moment the process raises the condition.
-/

/-- Width of `usize` on the modelled 64-bit platform. -/
def USIZE_WIDTH : Nat := 2 ^ 64

/-- `usize::MAX`. -/
def USIZE_MAX : Nat := USIZE_WIDTH - 1

/-- `isize::MAX as usize`. -/
def ISIZE_MAX : Nat := 2 ^ 63 - 1

/-- `EXCLUSIVITY_MARKER` from `src/lib.rs`:
`usize::MAX - (usize::MAX - isize::MAX as usize) / 2`.
Counter values at or above it denote an active exclusive borrow. -/
def EXCLUSIVITY_MARKER : Nat := USIZE_MAX - (USIZE_MAX - ISIZE_MAX) / 2

/-- `fetch_add(1)` result on the cell: wrapping increment. -/
def wrapAdd1 (c : Nat) : Nat := (c + 1) % USIZE_WIDTH

/-- `fetch_sub(1)` result on the cell: wrapping decrement. -/
def wrapSub1 (c : Nat) : Nat := (c + (USIZE_WIDTH - 1)) % USIZE_WIDTH

theorem usize_width_eq : USIZE_WIDTH = 18446744073709551616 := by
  norm_num [USIZE_WIDTH]

theorem usize_max_eq : USIZE_MAX = 18446744073709551615 := by
  norm_num [USIZE_MAX, USIZE_WIDTH]

theorem isize_max_eq : ISIZE_MAX = 9223372036854775807 := by
  norm_num [ISIZE_MAX]

theorem exclusivity_marker_eq : EXCLUSIVITY_MARKER = 13835058055282163711 := by
  norm_num [EXCLUSIVITY_MARKER, USIZE_MAX, ISIZE_MAX, USIZE_WIDTH]

theorem wrapSub1_eq (c : Nat) (h1 : 1 ≤ c) (h2 : c ≤ USIZE_MAX) :
    wrapSub1 c = c - 1 := by
  simp only [wrapSub1, usize_width_eq]
  simp only [usize_max_eq] at h2
  omega

theorem wrapAdd1_eq (c : Nat) (h : c < USIZE_MAX) :
    wrapAdd1 c = c + 1 := by
  simp only [wrapAdd1, usize_width_eq]
  simp only [usize_max_eq] at h
  omega

/-- `DecrementFollowup` from `src/lib.rs`: the two-way classification a
decrement returns. -/
inductive DecrementFollowup
  /-- There are (usually) further shared references; leave the instance. -/
  | leakIt
  /-- No further references exist; the instance may be dropped or moved. -/
  | dropOrMoveIt
deriving DecidableEq

/-- Outcome of `RefCounterExt::increment`. -/
inductive IncOutcome
  /-- The increment completed normally. -/
  | ok
  /-- The operation raised the "Tried to clone smart pointer during
  exclusive value borrow." panic. -/
  | panicked
  /-- The operation called `abort()`. -/
  | aborted
deriving DecidableEq

/-- Result of an increment: its outcome and the counter cell's value
afterwards (for `aborted`/`panicked`, the value at the moment the
condition is raised). -/
structure IncState where
  result : IncOutcome
  refcount : Nat
deriving DecidableEq

/-- `RefCounterExt::increment` under the `"sync"` feature, with the value
the cell holds when the rollback `fetch_sub` executes given explicitly as
`v` (concurrent interference may have changed the cell between the two
atomic operations; in a sequential run `v = wrapAdd1 c`).
Source: `src/lib.rs` lines 210-237. -/
def incrementAt (c v : Nat) : IncState :=
  -- let old_count = self.refcount().fetch_add(1, Ordering::Relaxed);
  if ISIZE_MAX ≤ c then
    if EXCLUSIVITY_MARKER ≤ c then
      -- revert the refcount; the fetch_sub observes `v` and leaves `v - 1`
      if EXCLUSIVITY_MARKER < v then
        ⟨IncOutcome.panicked, wrapSub1 v⟩
      else
        -- likely outraced by an `Exclusivity` drop: abort
        ⟨IncOutcome.aborted, wrapSub1 v⟩
    else
      -- immense reference count: abort to prevent overflow
      ⟨IncOutcome.aborted, wrapAdd1 c⟩
  else
    ⟨IncOutcome.ok, wrapAdd1 c⟩

/-- `RefCounterExt::increment` under the `"sync"` feature in a sequential
(interference-free) run: the rollback `fetch_sub`, when it executes,
observes exactly the value left by this operation's own `fetch_add`. -/
def increment (c : Nat) : IncState := incrementAt c (wrapAdd1 c)

/-- `RefCounterExt::increment` without the `"sync"` feature (plain `Cell`):
the guard is tested before the store, so neither `abort` nor the panic
path modifies the counter.  Source: `src/lib.rs` lines 238-253. -/
def increment_unsync (c : Nat) : IncState :=
  if EXCLUSIVITY_MARKER - 1 ≤ c then
    if c < EXCLUSIVITY_MARKER then
      ⟨IncOutcome.aborted, c⟩
    else
      ⟨IncOutcome.panicked, c⟩
  else
    ⟨IncOutcome.ok, c + 1⟩

/-- Result of `RefCounterExt::decrement`: the followup classification and
the counter value after the `fetch_sub`. -/
structure DecState where
  followup : DecrementFollowup
  refcount : Nat
deriving DecidableEq

/-- `RefCounterExt::decrement` (`src/lib.rs` lines 268-289): decrements
and classifies by the **old** value (`1` ⇒ `DropOrMoveIt`, anything else
⇒ `LeakIt`).  The `"sync"` and non-`"sync"` variants differ only in
memory ordering at this level of abstraction. -/
def decrement (c : Nat) : DecState :=
  if c = 1 then
    ⟨DecrementFollowup.dropOrMoveIt, wrapSub1 c⟩
  else
    ⟨DecrementFollowup.leakIt, wrapSub1 c⟩

/-- Result of `RefCounterExt::decrement_relaxed`: `none` means the
process was aborted (the old value was in the exclusivity-sentinel
range); otherwise the classification, plus the counter value after the
`fetch_sub` (which in the source executes before the match). -/
structure DecRelaxedState where
  followup : Option DecrementFollowup
  refcount : Nat
deriving DecidableEq

/-- `RefCounterExt::decrement_relaxed` (`src/lib.rs` lines 306-323):
like `decrement` but the match on the old value has an extra arm
`EXCLUSIVITY_MARKER..=usize::MAX => abort()`. -/
def decrement_relaxed (c : Nat) : DecRelaxedState :=
  if EXCLUSIVITY_MARKER ≤ c then
    ⟨none, wrapSub1 c⟩
  else if c = 1 then
    ⟨some DecrementFollowup.dropOrMoveIt, wrapSub1 c⟩
  else
    ⟨some DecrementFollowup.leakIt, wrapSub1 c⟩

/-- `Exclusivity` from `src/lib.rs`: the token remembers the displaced
counter value.  (The source also stores the counter's address; in this
state-passing model the address is implicit in which counter the
operations are applied to.) -/
structure Exclusivity where
  displaced_refcount : Nat
deriving DecidableEq

/-- `Exclusivity::new` (`src/lib.rs` lines 398-409): reads the current
counter value into the token and overwrites the cell with
`EXCLUSIVITY_MARKER`.  Returns the token and the new cell value. -/
def Exclusivity.new (c : Nat) : Exclusivity × Nat :=
  (⟨c⟩, EXCLUSIVITY_MARKER)

/-- `impl Drop for Exclusivity` (`src/lib.rs` lines 411-415): writes the
displaced value back, whatever the cell currently holds. -/
def Exclusivity.drop (e : Exclusivity) (_current : Nat) : Nat :=
  e.displaced_refcount

/-- `RefCounterExt::acquire` (`src/lib.rs` lines 332-344): loads the
counter; on exactly `1` installs an `Exclusivity`, otherwise leaves the
cell untouched.  Returns the optional token and the cell value after. -/
def acquire (c : Nat) : Option Exclusivity × Nat :=
  if c = 1 then
    (some (Exclusivity.new c).1, (Exclusivity.new c).2)
  else
    (none, c)

/-- `RefCounterExt::acquire_relaxed` (`src/lib.rs` lines 361-373):
identical logic with relaxed ordering. -/
def acquire_relaxed (c : Nat) : Option Exclusivity × Nat :=
  if c = 1 then
    (some (Exclusivity.new c).1, (Exclusivity.new c).2)
  else
    (none, c)

/-- `impl Clone for TipToe` (`src/lib.rs` lines 114-118): returns
`Self::default()`, i.e. a zero counter, never a copy of the count.  A
`TipToe` is represented by its counter value. -/
def TipToe.clone (_c : Nat) : Nat := 0

/-- The blanket `impl<T: Clone> ManagedClone for T` (`src/lib.rs` lines
498-509) applied to a payload whose duplication clones its embedded
`TipToe` field: the clone's embedded counter is `TipToe.clone` of the
original's.  A payload is represented by its embedded counter value. -/
def managedClone (c : Nat) : Nat := TipToe.clone c

/-- An `Arc` handle (`src/sync.rs`): a single non-null payload pointer.
Addresses are modelled as `Nat`; the counter of the allocation a handle
points to is passed alongside. -/
structure Arc where
  pointer : Nat
deriving DecidableEq

/-- Effect of `impl Drop for Arc` (`src/sync.rs` lines 95-104) on the
counter: decrement, and on `DropOrMoveIt` drop `Box::from_raw(...)`,
which runs the payload destructor and frees the allocation. -/
structure ArcDropState where
  refcount : Nat
  freed : Bool
deriving DecidableEq

/-- `impl Drop for Arc` (`src/sync.rs` lines 95-104). -/
def Arc.drop (c : Nat) : ArcDropState :=
  match decrement c with
  | ⟨DecrementFollowup.leakIt, c1⟩ => ⟨c1, false⟩
  | ⟨DecrementFollowup.dropOrMoveIt, c1⟩ => ⟨c1, true⟩

/-- `Arc::new` (`src/sync.rs` lines 217-224) at the counter level:
increments the moved-in value's embedded counter (then boxes and leaks
it, which does not touch the counter). -/
def Arc.new (payloadCounter : Nat) : IncState := increment payloadCounter

/-- Observable effect of `Arc::try_unwrap` (`src/sync.rs` lines 257-273).
`success` is whether `Ok` was returned; on failure `returnedHandle` is
the `Err(this)` handle; on success `returnedValueCounter` is the embedded
counter of the payload returned by value; `heapCounter` is the final
value of the counter in the heap allocation; `freed` is whether the heap
allocation was returned to the allocator; `payloadDropRan` is whether the
payload's destructor ran on the heap copy. -/
structure TryUnwrapState where
  success : Bool
  returnedHandle : Option Arc
  returnedValueCounter : Option Nat
  heapCounter : Nat
  freed : Bool
  payloadDropRan : Bool
deriving DecidableEq

/-- `Arc::try_unwrap` (`src/sync.rs` lines 257-273), step by step:
`acquire` on the embedded counter; on `None`, `Err(this)` with nothing
touched.  On `Some(exclusivity)`: the exclusivity is dropped (restoring
the displaced count), `ManuallyDrop::take` moves the payload out by
bytes (the heap bytes keep the old count), `tap_mut` runs
`decrement_relaxed` on the **moved** value's counter, and the temporary
`Arc<ManuallyDrop<T>>` from the transmute is dropped at the end of the
expression, decrementing the heap counter and freeing the allocation via
`Box::from_raw` without running `T`'s destructor (it is wrapped in
`ManuallyDrop`). -/
def Arc.try_unwrap (this : Arc) (c : Nat) : TryUnwrapState :=
  match acquire c with
  | (none, c1) => ⟨false, some this, none, c1, false, false⟩
  | (some exclusivity, c1) =>
      let c2 := Exclusivity.drop exclusivity c1
      let movedCounter := c2
      let tapped := decrement_relaxed movedCounter
      let heapDrop := Arc.drop c2
      ⟨true, none, some tapped.refcount, heapDrop.refcount, heapDrop.freed, false⟩

/-- Observable effect of `Arc::make_mut` (`src/sync.rs` lines 386-409).
`viewPointer` is the allocation the returned `ExclusivePin` gives access
to; `cloned` is whether a managed clone into a fresh allocation was
performed; `origCounter`/`origFreed` describe the original allocation
after the call; `viewCounter` is the counter of the view's allocation
while the view is held; dropping the view writes
`token.displaced_refcount` back into it. -/
structure MakeMutOutcome where
  viewPointer : Nat
  cloned : Bool
  origCounter : Nat
  origFreed : Bool
  viewCounter : Nat
  token : Exclusivity
deriving DecidableEq

/-- `Arc::make_mut` (`src/sync.rs` lines 386-409) on a handle at address
`pOld` whose allocation's counter is `cA`; `pNew` is the address of the
fresh allocation `Self::pin` would create.  On failed `acquire`:
`(&**this).managed_clone()` duplicates the payload (embedded counter per
the blanket `ManagedClone`), `Self::pin` increments it, the assignment
`*this = ...` drops the old handle, and `acquire` is retried on the new
allocation; `.expect("unreachable")` panics (modelled as `none`) if that
retry fails. -/
def Arc.make_mut (pOld cA pNew : Nat) : Option MakeMutOutcome :=
  match acquire cA with
  | (some exclusivity, cA1) =>
      some ⟨pOld, false, cA1, false, cA1, exclusivity⟩
  | (none, cA1) =>
      let clonedPayload := managedClone cA1
      let pinned := increment clonedPayload
      let origDrop := Arc.drop cA1
      match acquire pinned.refcount with
      | (some exclusivity2, cNew1) =>
          some ⟨pNew, true, origDrop.refcount, origDrop.freed, cNew1, exclusivity2⟩
      | (none, _) => none

theorem marker_le_usize_max : EXCLUSIVITY_MARKER ≤ USIZE_MAX := by
  rw [exclusivity_marker_eq, usize_max_eq]; omega

theorem isize_max_le_marker : ISIZE_MAX ≤ EXCLUSIVITY_MARKER := by
  rw [exclusivity_marker_eq, isize_max_eq]; omega

theorem acquire_one : acquire 1 = (some ⟨1⟩, EXCLUSIVITY_MARKER) := by
  simp [acquire, Exclusivity.new]

theorem acquire_ne_one (c : Nat) (h : c ≠ 1) : acquire c = (none, c) := by
  simp [acquire, h]

/-- C1: the exclusive-acquire operation (`acquire`, and its relaxed
variant) returns a token if and only if the counter is exactly `1`; when
it returns a token the counter has been overwritten with
`EXCLUSIVITY_MARKER` (and the token holds the displaced value), and
when it returns no token the counter is unchanged. -/
theorem acquire_exclusive_iff (c : Nat) :
    ((acquire c).1.isSome ↔ c = 1) ∧
    ((acquire_relaxed c).1.isSome ↔ c = 1) ∧
    (acquire c).1 = (if c = 1 then some ⟨c⟩ else none) ∧
    (acquire c).2 = (if c = 1 then EXCLUSIVITY_MARKER else c) ∧
    acquire_relaxed c = acquire c := by
  by_cases h : c = 1 <;>
    simp [acquire, acquire_relaxed, Exclusivity.new, h]

/-- C2: for `1 ≤ c` below the sentinel range, `decrement` lowers the
counter by exactly one and classifies `DropOrMoveIt` iff the
pre-decrement value was `1` (`LeakIt` otherwise); `Arc`'s `Drop` runs the
payload destructor and frees the allocation exactly when that
classification is returned. -/
theorem decrement_last_handle (c : Nat) (h1 : 1 ≤ c)
    (h2 : c < EXCLUSIVITY_MARKER) :
    (decrement c).refcount = c - 1 ∧
    ((decrement c).followup = DecrementFollowup.dropOrMoveIt ↔ c = 1) ∧
    ((decrement c).followup = DecrementFollowup.leakIt ↔ 2 ≤ c) ∧
    ((Arc.drop c).freed = true ↔
      (decrement c).followup = DecrementFollowup.dropOrMoveIt) ∧
    (Arc.drop c).refcount = c - 1 ∧
    ((Arc.drop c).freed = true ↔ c = 1) := by
  have hmax : c ≤ USIZE_MAX := le_trans (le_of_lt h2) marker_le_usize_max
  have hs : wrapSub1 c = c - 1 := wrapSub1_eq c h1 hmax
  by_cases h : c = 1
  · subst h; simp [decrement, Arc.drop, hs]
  · simp [decrement, Arc.drop, h, hs]
    omega

/-- C3: for every pre-increment counter value in the sentinel range, the
sync `increment` does not complete: the counter ends at the
rollback-observed value minus one (its own increment reverted, so in an
interference-free run the counter is net unchanged and the operation
panics), it panics exactly when the rollback observation is still above
the sentinel, and aborts exactly when it observes the sentinel gone; the
non-sync variant panics with the counter untouched. -/
theorem increment_during_exclusivity (c v : Nat)
    (hc : EXCLUSIVITY_MARKER ≤ c) (_hcM : c ≤ USIZE_MAX) :
    (incrementAt c v).result ≠ IncOutcome.ok ∧
    ((incrementAt c v).result = IncOutcome.panicked ↔ EXCLUSIVITY_MARKER < v) ∧
    ((incrementAt c v).result = IncOutcome.aborted ↔ v ≤ EXCLUSIVITY_MARKER) ∧
    (incrementAt c v).refcount = wrapSub1 v ∧
    (c < USIZE_MAX → increment c = ⟨IncOutcome.panicked, c⟩) ∧
    increment_unsync c = ⟨IncOutcome.panicked, c⟩ := by
  have hI : ISIZE_MAX ≤ c := le_trans isize_max_le_marker hc
  refine ⟨?_, ?_, ?_, ?_, ?_, ?_⟩
  · by_cases hv : EXCLUSIVITY_MARKER < v <;>
      simp [incrementAt, hI, hc, hv]
  · by_cases hv : EXCLUSIVITY_MARKER < v <;>
      simp [incrementAt, hI, hc, hv]
  · by_cases hv : EXCLUSIVITY_MARKER < v <;>
      simp [incrementAt, hI, hc, hv] <;> omega
  · by_cases hv : EXCLUSIVITY_MARKER < v <;>
      simp [incrementAt, hI, hc, hv]
  · intro hlt
    have ha : wrapAdd1 c = c + 1 := wrapAdd1_eq c hlt
    have hv : EXCLUSIVITY_MARKER < c + 1 := Nat.lt_succ_of_le hc
    have hsub : wrapSub1 (c + 1) = c := by
      have := wrapSub1_eq (c + 1) (by omega)
        (by rw [usize_max_eq] at hlt ⊢; omega)
      omega
    simp [increment, incrementAt, hI, hc, ha, hv, hsub]
  · have h1 : EXCLUSIVITY_MARKER - 1 ≤ c := by omega
    have h2 : ¬ c < EXCLUSIVITY_MARKER := by omega
    simp [increment_unsync, h1, h2]

/-- C4: installing an `Exclusivity` token and then dropping it is a round
trip: construction captures the counter value in effect before
installation (`1`, given `acquire`'s precondition) and overwrites the
cell with the sentinel, and dropping the token writes the captured value
back, so after a successful acquire followed by a token drop the counter
reads exactly `1` again. -/
theorem exclusivity_roundtrip (c : Nat) (h : c = 1) :
    (Exclusivity.new c).1.displaced_refcount = c ∧
    (Exclusivity.new c).2 = EXCLUSIVITY_MARKER ∧
    (∀ cur, Exclusivity.drop (Exclusivity.new c).1 cur = c) ∧
    acquire c = (some (Exclusivity.new c).1, EXCLUSIVITY_MARKER) ∧
    Exclusivity.drop (Exclusivity.new c).1 (acquire c).2 = 1 := by
  subst h
  simp [Exclusivity.new, Exclusivity.drop, acquire]

theorem wrapSub1_one : wrapSub1 1 = 0 := by
  norm_num [wrapSub1, usize_width_eq]

theorem decrement_relaxed_one :
    decrement_relaxed 1 = ⟨some DecrementFollowup.dropOrMoveIt, 0⟩ := by
  rw [decrement_relaxed]
  norm_num [exclusivity_marker_eq, wrapSub1_one]

theorem arc_drop_one : Arc.drop 1 = ⟨0, true⟩ := by
  simp [Arc.drop, decrement, wrapSub1_one]

theorem increment_zero : increment 0 = ⟨IncOutcome.ok, 1⟩ := by
  rw [increment, incrementAt]
  norm_num [isize_max_eq, wrapAdd1, usize_width_eq]

/-- C5: `Arc::try_unwrap` succeeds iff the embedded counter is exactly
`1` at call time; whenever the counter differs (any number of live
duplicates), it fails and returns the original handle unchanged, with
the counter value unmodified, nothing freed, and no destructor run. -/
theorem try_unwrap_sole_iff (a : Arc) (c : Nat) :
    ((Arc.try_unwrap a c).success = true ↔ c = 1) ∧
    ((Arc.try_unwrap a c).returnedHandle =
      if c = 1 then none else some a) ∧
    (¬ c = 1 →
      (Arc.try_unwrap a c).heapCounter = c ∧
      (Arc.try_unwrap a c).freed = false ∧
      (Arc.try_unwrap a c).payloadDropRan = false) := by
  by_cases h : c = 1
  · subst h
    simp [Arc.try_unwrap, acquire_one]
  · simp [Arc.try_unwrap, acquire_ne_one c h, h]

/-- C10: on a sole handle (counter exactly `1`), a successful
`Arc::try_unwrap` returns the payload by value with its embedded counter
reset to `0`, so `Arc::new` on the returned value yields a counter of
`1`; the vacated heap allocation is freed without running the payload's
destructor. -/
theorem try_unwrap_success_zeroed (a : Arc) (c : Nat) (h : c = 1) :
    (Arc.try_unwrap a c).success = true ∧
    (Arc.try_unwrap a c).returnedValueCounter = some 0 ∧
    (Arc.try_unwrap a c).freed = true ∧
    (Arc.try_unwrap a c).payloadDropRan = false ∧
    (Arc.try_unwrap a c).heapCounter = 0 ∧
    Arc.new ((Arc.try_unwrap a c).returnedValueCounter.getD 1) =
      ⟨IncOutcome.ok, 1⟩ := by
  subst h
  simp [Arc.try_unwrap, acquire_one, Exclusivity.drop,
    decrement_relaxed_one, arc_drop_one, Arc.new, increment_zero]

/-- C6: an increment whose pre-increment value is at or beyond the
near-overflow abort threshold but below the sentinel range aborts the
process: with the `"sync"` feature the threshold is `isize::MAX`;
without it, `EXCLUSIVITY_MARKER - 1`. -/
theorem increment_near_overflow_aborts (c : Nat)
    (h1 : ISIZE_MAX ≤ c) (h2 : c < EXCLUSIVITY_MARKER) :
    (increment c).result = IncOutcome.aborted ∧
    (increment_unsync (EXCLUSIVITY_MARKER - 1)).result =
      IncOutcome.aborted := by
  constructor
  · have hn : ¬ EXCLUSIVITY_MARKER ≤ c := by omega
    simp [increment, incrementAt, h1, hn]
  · rw [increment_unsync]
    norm_num [exclusivity_marker_eq]

/-- C7 counterexample: at counter value `EXCLUSIVITY_MARKER`,
`decrement` returns the `LeakIt` classification while
`decrement_relaxed` aborts the process (no classification at all), so
the two do not compute the same result on every counter value. -/
theorem decrement_vs_relaxed_counterexample :
    (decrement EXCLUSIVITY_MARKER).followup = DecrementFollowup.leakIt ∧
    (decrement_relaxed EXCLUSIVITY_MARKER).followup = none := by
  constructor
  · rw [decrement]
    norm_num [exclusivity_marker_eq]
  · rw [decrement_relaxed]
    norm_num

/-- C7 (amended): on every counter value below the exclusivity-sentinel
range, `decrement_relaxed` computes the same result as `decrement` (both
decrease the counter by one and return the same classification); on
sentinel-range values `decrement_relaxed` aborts instead. -/
theorem decrement_relaxed_agrees_below_sentinel (c : Nat)
    (h : c < EXCLUSIVITY_MARKER) :
    (decrement_relaxed c).followup = some (decrement c).followup ∧
    (decrement_relaxed c).refcount = (decrement c).refcount ∧
    (1 ≤ c → (decrement c).refcount = c - 1) := by
  have hn : ¬ EXCLUSIVITY_MARKER ≤ c := by omega
  have hmax : c ≤ USIZE_MAX := le_trans (le_of_lt h) marker_le_usize_max
  refine ⟨?_, ?_, fun h1 => ?_⟩
  · by_cases h1 : c = 1
    · subst h1
      simp [decrement_relaxed_one, decrement, wrapSub1_one]
    · simp [decrement_relaxed, decrement, hn, h1]
  · by_cases h1 : c = 1
    · subst h1
      simp [decrement_relaxed_one, decrement, wrapSub1_one]
    · simp [decrement_relaxed, decrement, hn, h1]
  · by_cases h1c : c = 1
    · subst h1c
      simp [decrement, wrapSub1_one]
    · simp [decrement, h1c, wrapSub1_eq c h1 hmax]

/-- C8: `Arc::make_mut` on a sole-owner handle (counter `1`) returns an
exclusive view into the same allocation with no managed clone; on a
shared handle (counter `≥ 2`) it managed-clones the payload into a fresh
allocation, hands out a view into that allocation, decrements the
original allocation's counter by exactly one (without freeing it), and
dropping the returned view leaves the new allocation's counter at `1`. -/
theorem make_mut_cow (pOld pNew cA : Nat) (h1 : 1 ≤ cA)
    (h2 : cA < EXCLUSIVITY_MARKER) :
    (cA = 1 → Arc.make_mut pOld cA pNew =
      some ⟨pOld, false, EXCLUSIVITY_MARKER, false, EXCLUSIVITY_MARKER, ⟨1⟩⟩) ∧
    (2 ≤ cA → Arc.make_mut pOld cA pNew =
      some ⟨pNew, true, cA - 1, false, EXCLUSIVITY_MARKER, ⟨1⟩⟩) ∧
    (∀ r, Arc.make_mut pOld cA pNew = some r →
      Exclusivity.drop r.token r.viewCounter = 1) := by
  have hmax : cA ≤ USIZE_MAX := le_trans (le_of_lt h2) marker_le_usize_max
  have key : Arc.make_mut pOld cA pNew = some
      (if cA = 1 then
        ⟨pOld, false, EXCLUSIVITY_MARKER, false, EXCLUSIVITY_MARKER, ⟨1⟩⟩
      else
        ⟨pNew, true, cA - 1, false, EXCLUSIVITY_MARKER, ⟨1⟩⟩) := by
    by_cases h : cA = 1
    · subst h
      simp [Arc.make_mut, acquire_one]
    · have hd : Arc.drop cA = ⟨cA - 1, false⟩ := by
        simp [Arc.drop, decrement, h, wrapSub1_eq cA h1 hmax]
      simp [Arc.make_mut, acquire_ne_one cA h, managedClone,
        TipToe.clone, increment_zero, hd, acquire_one, h]
  refine ⟨fun h => by rw [key]; simp [h],
          fun h => by rw [key]; simp [show ¬ cA = 1 by omega],
          fun r hr => ?_⟩
  rw [key] at hr
  have hre := Option.some.inj hr
  subst hre
  by_cases h : cA = 1 <;> simp [h, Exclusivity.drop]

/-- C9: cloning a `TipToe` always yields a fresh zero counter, never a
copy of the current count; the blanket `ManagedClone` therefore produces
a payload whose embedded counter is `0`, which is why the copy-on-write
path in `make_mut` (which increments that fresh counter once through
`Self::pin`) yields an exclusive handle: counter `1`, on which `acquire`
succeeds. -/
theorem tiptoe_clone_fresh (c : Nat) :
    TipToe.clone c = 0 ∧
    managedClone c = 0 ∧
    increment (managedClone c) = ⟨IncOutcome.ok, 1⟩ ∧
    (acquire (increment (managedClone c)).refcount).1.isSome = true := by
  simp [TipToe.clone, managedClone, increment_zero, acquire_one]

theorem decrement_last_handle_witness :
    1 ≤ 2 ∧ 2 < EXCLUSIVITY_MARKER ∧ (decrement 2).refcount = 2 - 1 :=
  ⟨by decide, by decide,
   (decrement_last_handle 2 (by decide) (by decide)).1⟩

theorem increment_during_exclusivity_witness :
    EXCLUSIVITY_MARKER ≤ EXCLUSIVITY_MARKER ∧
    EXCLUSIVITY_MARKER ≤ USIZE_MAX ∧
    (incrementAt EXCLUSIVITY_MARKER (EXCLUSIVITY_MARKER + 1)).result ≠
      IncOutcome.ok :=
  ⟨le_refl _, by decide,
   (increment_during_exclusivity EXCLUSIVITY_MARKER (EXCLUSIVITY_MARKER + 1)
     (le_refl _) (by decide)).1⟩

theorem exclusivity_roundtrip_witness :
    (1 : Nat) = 1 ∧ (Exclusivity.new 1).1.displaced_refcount = 1 :=
  ⟨rfl, (exclusivity_roundtrip 1 rfl).1⟩

theorem try_unwrap_sole_iff_witness :
    (Arc.try_unwrap ⟨7⟩ 2).success = true ↔ (2 : Nat) = 1 :=
  (try_unwrap_sole_iff ⟨7⟩ 2).1

theorem try_unwrap_success_zeroed_witness :
    (1 : Nat) = 1 ∧ (Arc.try_unwrap ⟨5⟩ 1).returnedValueCounter = some 0 :=
  ⟨rfl, (try_unwrap_success_zeroed ⟨5⟩ 1 rfl).2.1⟩

theorem increment_near_overflow_aborts_witness :
    ISIZE_MAX ≤ ISIZE_MAX ∧ ISIZE_MAX < EXCLUSIVITY_MARKER ∧
    (increment ISIZE_MAX).result = IncOutcome.aborted :=
  ⟨le_refl _, by decide,
   (increment_near_overflow_aborts ISIZE_MAX (le_refl _) (by decide)).1⟩

theorem decrement_relaxed_agrees_below_sentinel_witness :
    (2 : Nat) < EXCLUSIVITY_MARKER ∧
    (decrement_relaxed 2).followup = some (decrement 2).followup :=
  ⟨by decide, (decrement_relaxed_agrees_below_sentinel 2 (by decide)).1⟩

theorem make_mut_cow_witness :
    1 ≤ 2 ∧ (2 : Nat) < EXCLUSIVITY_MARKER ∧
    Arc.make_mut 3 2 4 =
      some ⟨4, true, 2 - 1, false, EXCLUSIVITY_MARKER, ⟨1⟩⟩ :=
  ⟨by decide, by decide,
   (make_mut_cow 3 4 2 (by decide) (by decide)).2.1 (by decide)⟩
